import Mathlib

/-!
# Verification of the Prometheus client `SelfCollector`

Shallow embedding of `src/prometheus/collector.go`.  The `SelfCollector`
struct holds a reference to a metric (`self Metric`, an interface value that
may be nil) and a cached descriptor slice (`descs []*Desc`).  Its pointer
methods are translated as explicit state-passing functions: each method
returns its result together with the (possibly updated) receiver state, and
the channel send in `Collect` is modelled as appending to a sink list.
-/

/-- Modelled from the spec: a Descriptor is "an immutable, content-addressed
description of a metric family (name, help text, the ordered set of label
names it varies over, and any constant label values)".  The concrete `Desc`
type of the repository is defined outside the given source file; the claims
below only need descriptors to form a type with decidable equality. -/
structure Desc where
  name : String
  help : String
  variableLabels : List String
  constLabels : List (String × String)
deriving DecidableEq

/-- Modelled from the spec: a metric implementation "must supply a
single-valued `Desc()` accessor" to use the self-describing wrapper.  The
concrete `Metric` interface of the repository is defined outside the given
source file.  The `value` field keeps two distinct metrics sharing one
descriptor distinguishable. -/
structure Metric where
  desc : Desc
  value : Int
deriving DecidableEq

/-- The `Desc()` accessor of a metric. -/
def Metric.Desc (m : Metric) : Desc := m.desc

/-- The `SelfCollector` struct (collector.go lines 47-50):
`self Metric; descs []*Desc`.  A Go interface field may be nil, hence
`Option Metric`; a nil slice is the empty list. -/
structure SelfCollector where
  self : Option Metric
  descs : List Desc
deriving DecidableEq

/-- The Go zero value of `SelfCollector`: nil interface, nil slice.  This is
the state of the wrapper before `Init` has ever been called. -/
def SelfCollector.zero : SelfCollector :=
  { self := none, descs := [] }

/-- `Init` (collector.go lines 55-58):
`c.self = self; c.descs = []*Desc{self.Desc()}` — stores the metric
reference and caches the one-element descriptor slice. -/
def SelfCollector.Init (c : SelfCollector) (self : Metric) : SelfCollector :=
  { c with self := some self, descs := [self.Desc] }

/-- `Describe` (collector.go lines 61-63): `return c.descs`.  The second
component is the receiver state after the call (the method body performs no
assignment). -/
def SelfCollector.Describe (c : SelfCollector) : List Desc × SelfCollector :=
  (c.descs, c)

/-- `Collect` (collector.go lines 66-68): `ch <- c.self`.  The channel is
modelled as the list of values handed off so far; the send appends one
element and the method returns.  The second component is the receiver state
after the call. -/
def SelfCollector.Collect (c : SelfCollector) (ch : List (Option Metric)) :
    List (Option Metric) × SelfCollector :=
  (ch ++ [c.self], c)

/-- One read-only operation a concurrent caller may perform on the wrapper
(`Init` is excluded: the contract requires it to be called exactly once,
before the wrapper is used as a Collector). -/
inductive CollectorOp
  | describeOp
  | collectOp
deriving DecidableEq

/-- Runs a sequence of `Describe`/`Collect` operations against the wrapper,
threading the receiver state through every call; each `Collect` is given a
fresh sink and its emissions are recorded.  Since `Describe` and `Collect`
each consist of a single read of the receiver, an arbitrary interleaving of
calls from several concurrent callers is exactly a sequence of these atomic
operations. -/
def SelfCollector.runOps (c : SelfCollector) :
    List CollectorOp → SelfCollector × List (List (Option Metric))
  | [] => (c, [])
  | CollectorOp.describeOp :: rest =>
      (c.Describe).2.runOps rest
  | CollectorOp.collectOp :: rest =>
      let out := (c.Collect []).1
      let r := ((c.Collect []).2).runOps rest
      (r.1, out :: r.2)

/-- A sample descriptor, used by concrete witnesses. -/
def sampleDesc : Desc :=
  { name := "requests_total", help := "sample help", variableLabels := [],
    constLabels := [] }

/-- A sample metric, used by concrete witnesses. -/
def sampleMetric : Metric :=
  { desc := sampleDesc, value := 5 }

/-- Claim C1: after the self-describing wrapper has been initialized with a
metric `M` via `Init`, `Describe` returns exactly the one-element sequence
`[M.Desc]`. -/
theorem selfCollector_describe_after_init (c : SelfCollector) (M : Metric) :
    ((c.Init M).Describe).1 = [M.Desc] := rfl

/-- Claim C2: after the wrapper has been initialized with `M`, `Collect`
hands exactly one snapshot to the sink, that snapshot is `M` itself, the
method then returns, and nothing else is emitted. -/
theorem selfCollector_collect_emits_self (c : SelfCollector) (M : Metric)
    (sink : List (Option Metric)) :
    ((c.Init M).Collect sink).1 = sink ++ [some M] := by
  simp [SelfCollector.Collect, SelfCollector.Init]

/-- Claim C3: in any wrapper state, with no interleaved `Init`, calling
`Describe` twice returns equal descriptor sequences: the second call (on the
state left by the first) returns the same result as the first. -/
theorem selfCollector_describe_idempotent (c : SelfCollector) :
    (((c.Describe).2).Describe).1 = (c.Describe).1 := rfl

/-- Claim C4: for a wrapper initialized with `M`, the descriptor of every
snapshot emitted by `Collect` is a member of the sequence returned by
`Describe`. -/
theorem selfCollector_collect_within_describe (c : SelfCollector)
    (M : Metric) (x : Option Metric)
    (hx : x ∈ ((c.Init M).Collect []).1) :
    ∃ m, x = some m ∧ m.Desc ∈ ((c.Init M).Describe).1 := by
  simp [SelfCollector.Collect, SelfCollector.Init] at hx
  exact ⟨M, hx, by simp [SelfCollector.Describe, SelfCollector.Init]⟩

/-- Witness for claim C4 at a concrete wrapper, metric and emitted
snapshot. -/
theorem selfCollector_collect_within_describe_witness :
    (some sampleMetric ∈
        ((SelfCollector.zero.Init sampleMetric).Collect []).1) ∧
      (∃ m, some sampleMetric = some m ∧
        m.Desc ∈ ((SelfCollector.zero.Init sampleMetric).Describe).1) :=
  ⟨by decide,
    selfCollector_collect_within_describe SelfCollector.zero sampleMetric
      (some sampleMetric) (by decide)⟩

/-- Claim C5: `Init` eagerly computes and caches the one-element descriptor
sequence (`[M.Desc]` is stored in the `descs` field at initialization time),
and `Describe` returns whatever is cached in `descs` without consulting the
stored metric at all — so its result is fixed by the cached value, whatever
the `self` field holds. -/
theorem selfCollector_describe_uses_cache (c : SelfCollector) (M : Metric) :
    (c.Init M).descs = [M.Desc] ∧
      (∀ s : Option Metric,
        ((SelfCollector.mk s (c.Init M).descs).Describe).1 = [M.Desc]) :=
  ⟨rfl, fun _ => rfl⟩

/-- Claim C6: `Describe` and `Collect` leave the wrapper state (both the
stored metric reference and the cached descriptor sequence) unchanged; once
ready, no operation moves the wrapper to another state. -/
theorem selfCollector_ready_is_terminal (c : SelfCollector) :
    (c.Describe).2 = c ∧ ∀ sink, (c.Collect sink).2 = c :=
  ⟨rfl, fun _ => rfl⟩

/-- Claim C7: for every initialized wrapper and every sink, `Collect`
performs exactly one handoff to the sink and returns (it is a total
function of the accepted-handoff sink, adding exactly one element). -/
theorem selfCollector_collect_terminates (c : SelfCollector) (M : Metric)
    (sink : List (Option Metric)) :
    (((c.Init M).Collect sink).1).length = sink.length + 1 := by
  simp [SelfCollector.Collect]

/-- Claim C8: any interleaving of `Describe` and `Collect` calls from
concurrent callers (each method body is a single atomic read of the
receiver) leaves the wrapper state uncorrupted — in fact unchanged — and
every `Collect` call in the interleaving still emits exactly the wrapped
metric reference. -/
theorem selfCollector_concurrent_collect_safe (c : SelfCollector)
    (ops : List CollectorOp) :
    (c.runOps ops).1 = c ∧ ∀ out ∈ (c.runOps ops).2, out = [c.self] := by
  induction ops with
  | nil => exact ⟨rfl, by simp [SelfCollector.runOps]⟩
  | cons op rest ih =>
      cases op with
      | describeOp =>
          simpa [SelfCollector.runOps, SelfCollector.Describe] using ih
      | collectOp =>
          refine ⟨by simpa [SelfCollector.runOps, SelfCollector.Collect]
            using ih.1, ?_⟩
          intro out hout
          simp [SelfCollector.runOps, SelfCollector.Collect] at hout
          rcases hout with h | h
          · simpa using h
          · exact ih.2 out h

/-- Witness for claim C8: a concrete interleaving of two `Collect` calls
around a `Describe` call on an initialized wrapper. -/
theorem selfCollector_concurrent_collect_safe_witness :
    ((SelfCollector.zero.Init sampleMetric).runOps
        [CollectorOp.collectOp, CollectorOp.describeOp,
          CollectorOp.collectOp]).1 =
        SelfCollector.zero.Init sampleMetric ∧
      [some sampleMetric] = [(SelfCollector.zero.Init sampleMetric).self] :=
  ⟨(selfCollector_concurrent_collect_safe
      (SelfCollector.zero.Init sampleMetric)
      [CollectorOp.collectOp, CollectorOp.describeOp,
        CollectorOp.collectOp]).1,
    (selfCollector_concurrent_collect_safe
      (SelfCollector.zero.Init sampleMetric)
      [CollectorOp.collectOp, CollectorOp.describeOp,
        CollectorOp.collectOp]).2 [some sampleMetric] (by decide)⟩

/-- Claim C9: on the zero-valued wrapper (no `Init` ever called), both
operations are total at the wrapper level: `Describe` returns the empty
(nil) descriptor sequence and `Collect` hands the nil metric reference to
the sink; neither checks for initialization or fails. -/
theorem selfCollector_uninitialized_total :
    (SelfCollector.zero.Describe).1 = [] ∧
      ∀ sink, (SelfCollector.zero.Collect sink).1 = sink ++ [none] :=
  ⟨rfl, fun _ => rfl⟩

/-- Claim C10: a second `Init` completely overwrites the wrapper state —
both fields are reassigned unconditionally, so the resulting wrapper is
identical whatever the prior state was (last write wins, no accumulation of
descriptors). -/
theorem selfCollector_init_overwrites (c c' : SelfCollector) (M : Metric) :
    c.Init M = c'.Init M := rfl
